import Mathlib

/-!
Shallow embedding of `src/worker.ts` of the ubiquibot-kernel repository: a
Cloudflare-style webhook entry point.  The worker validates the environment
configuration, extracts three GitHub webhook headers, delegates signature
verification and dispatch to an external library (`verifyAndReceive`), and
translates any thrown value into an HTTP response.

External collaborators (`emitterEventNames` from octokit, the
`verifyAndReceive` capability) are parameters of the embedding: the worker
treats them abstractly (list membership, a fallible call).
-/

namespace Worker

/-- A JavaScript value that can appear as an element of an
`AggregateError.errors` array or be thrown on its own.  `nullish` stands for
`undefined` or `null` (reading a property of it throws a `TypeError`);
`val name message status` stands for any other value, recording the three
properties `handleUncaughtError` reads, each possibly `undefined`. -/
inductive JsErrVal where
  | nullish
  | val (name : Option String) (message : Option String) (status : Option Int)
deriving DecidableEq, Repr

/-- A thrown JavaScript value, as far as `handleUncaughtError` discriminates:
either an `AggregateError` carrying its `errors` array, or anything else. -/
inductive JsError where
  | aggregate (errors : List JsErrVal)
  | nonAggregate (v : JsErrVal)
deriving DecidableEq, Repr

/-- `new Error(message)`: name `"Error"`, the given message, no `status`. -/
def jsNewError (message : String) : JsError :=
  .nonAggregate (.val (some "Error") (some message) none)

/-- JavaScript truthiness of a `string | null | undefined` value:
falsy exactly when nullish or the empty string. -/
def truthyStr : Option String → Bool
  | none => false
  | some s => s ≠ ""

/-- Template-literal stringification of a possibly-`undefined` value
(`err.name` in the source): `undefined` prints as `"undefined"`. -/
def jsTemplateStr : Option String → String
  | none => "undefined"
  | some s => s

/-- Template-literal stringification of a `string | null` value
(`headers.get` results in the source): `null` prints as `"null"`. -/
def jsTemplateNullStr : Option String → String
  | none => "null"
  | some s => s

/-- The response value produced by the worker: status code, body text and
the `content-type` header. -/
structure Response where
  status : Int
  body : String
  contentType : String
deriving DecidableEq, Repr

/-- `JSON.stringify` escaping of a message string (quote, backslash and the
common control characters; no such character occurs in the worker messages). -/
def jsonEscapeChar (c : Char) : String :=
  if c = '"' then "\\\""
  else if c = '\\' then "\\\\"
  else if c = '\n' then "\\n"
  else if c = '\r' then "\\r"
  else if c = '\t' then "\\t"
  else String.singleton c

/-- `JSON.stringify({ error: message })`. -/
def jsonStringifyError (message : String) : String :=
  "\x7b\"error\":\"" ++ String.join (message.data.map jsonEscapeChar) ++ "\"\x7d"

/-- The `Headers` view of a request: `get` returns `null` (here `none`) for
an absent header. -/
structure Headers where
  get : String → Option String

/-- An inbound request: its headers and its body text (`request.text()`). -/
structure Request where
  headers : Headers
  body : String

/-- The environment configuration object.  The schema file
(`src/github/types/env.ts`) is not part of the sources given, so each field
is kept as an optional raw value. -/
structure Env where
  WEBHOOK_SECRET : Option String
  APP_ID : Option String
  APP_PRIVATE_KEY : Option String
  PLUGIN_CHAIN_STATE : Option String

/-- Modelled from the spec: `Value.Check(envSchema, env)` where `envSchema`
lives in `src/github/types/env.ts`, absent from the sources given.  The spec
describes it as "a fixed schema requiring: webhook secret (string),
application id (string/number), application private key (PEM string), and a
reference to a key-value storage binding", i.e. all four fields present. -/
def envSchemaCheck (env : Env) : Bool :=
  env.WEBHOOK_SECRET.isSome && env.APP_ID.isSome &&
    env.APP_PRIVATE_KEY.isSome && env.PLUGIN_CHAIN_STATE.isSome

/-- `validateEnv` from the source: throws `new Error("Invalid environment
variables")` when the schema check fails (the error list is only logged). -/
def validateEnv (env : Env) : Except JsError Unit :=
  if !envSchemaCheck env then
    .error (jsNewError "Invalid environment variables")
  else
    .ok ()

/-- `getEventName` from the source: reads `x-github-event`; throws unless the
value is truthy and a member of `emitterEventNames`.  The `Option.getD ""`
arguments are only reached when the header is present (the `!truthyStr`
disjunct short-circuits the `none` case), mirroring how the source narrows
`string | null` to `string`. -/
def getEventName (emitterEventNames : List String) (request : Request) :
    Except JsError String :=
  let eventName := request.headers.get "x-github-event"
  if !truthyStr eventName || !emitterEventNames.contains (eventName.getD "") then
    .error (jsNewError
      ("Unsupported or missing \"x-github-event\" header value: " ++
        jsTemplateNullStr eventName))
  else
    .ok (eventName.getD "")

/-- `getSignature` from the source: reads `x-hub-signature-256`; throws when
the value is falsy (absent or empty). -/
def getSignature (request : Request) : Except JsError String :=
  let signatureSha256 := request.headers.get "x-hub-signature-256"
  if !truthyStr signatureSha256 then
    .error (jsNewError "Missing \"x-hub-signature-256\" header")
  else
    .ok (signatureSha256.getD "")

/-- `getId` from the source: reads `x-github-delivery`; throws when the value
is falsy (absent or empty). -/
def getId (request : Request) : Except JsError String :=
  let id := request.headers.get "x-github-delivery"
  if !truthyStr id then
    .error (jsNewError "Missing \"x-github-delivery\" header")
  else
    .ok (id.getD "")

/-- The argument object of `webhooks.verifyAndReceive`. -/
structure VerifyArgs where
  id : String
  name : String
  payload : String
  signature : String
deriving DecidableEq, Repr

/-- `handleUncaughtError` from the source.  For an `AggregateError` it reads
`error.errors[0]`; when that element is `undefined` (empty array) or
otherwise nullish, the subsequent `err.message` read throws a `TypeError`,
modelled as `.error ()`.  Otherwise it builds the JSON error response. -/
def handleUncaughtError (error : JsError) : Except Unit Response :=
  let status : Int := 500
  let errorMessage := "An uncaught error occurred"
  match error with
  | .aggregate errors =>
    match errors.head? with
    | none => .error ()
    | some .nullish => .error ()
    | some (.val name message st) =>
      let errorMessage :=
        if truthyStr message then
          jsTemplateStr name ++ ": " ++ message.getD ""
        else
          "Error: " ++ errorMessage
      let status := match st with
        | some s => s
        | none => 500
      .ok ⟨status, jsonStringifyError errorMessage, "application/json"⟩
  | .nonAggregate _ =>
    .ok ⟨status, jsonStringifyError errorMessage, "application/json"⟩

/-- The body of the `try` block of `fetch`: validate the environment, read
the three headers in order, then delegate to `verifyAndReceive`; on full
success return the 200 `"ok\n"` response.  Construction of the event handler
and `bindHandlers` only wire objects together (per the spec they are
out-of-scope collaborators) and are not fallible steps here; the delegated
call is the parameter `verifyAndReceive`. -/
def fetchTry (emitterEventNames : List String)
    (verifyAndReceive : VerifyArgs → Except JsError Unit)
    (request : Request) (env : Env) : Except JsError Response :=
  match validateEnv env with
  | .error e => .error e
  | .ok _ =>
    match getEventName emitterEventNames request with
    | .error e => .error e
    | .ok eventName =>
      match getSignature request with
      | .error e => .error e
      | .ok signatureSha256 =>
        match getId request with
        | .error e => .error e
        | .ok id =>
          match verifyAndReceive ⟨id, eventName, request.body, signatureSha256⟩ with
          | .error e => .error e
          | .ok _ => .ok ⟨200, "ok\n", "text/plain"⟩

/-- `fetch` from the source: the try body with the catch-all handler.  The
overall result is `.error ()` exactly when `handleUncaughtError` itself
throws. -/
def fetch (emitterEventNames : List String)
    (verifyAndReceive : VerifyArgs → Except JsError Unit)
    (request : Request) (env : Env) : Except Unit Response :=
  match fetchTry emitterEventNames verifyAndReceive request env with
  | .ok response => .ok response
  | .error e => handleUncaughtError e

/-- Whether reading `.message` off the first element of the `errors` array
of a thrown value would succeed: true for any non-aggregate value, and for an
aggregate whose first element exists and is not nullish. -/
def firstErrorReadable : JsError → Bool
  | .aggregate errors =>
    match errors.head? with
    | some (.val _ _ _) => true
    | _ => false
  | .nonAggregate _ => true

/-! ### Sample concrete inputs used by witnesses -/

/-- A header map carrying the three GitHub webhook headers. -/
def sampleHeaders : Headers :=
  ⟨fun h =>
    if h = "x-github-event" then some "push"
    else if h = "x-hub-signature-256" then some "sha256=abc"
    else if h = "x-github-delivery" then some "delivery-1"
    else none⟩

/-- A request with all three headers set. -/
def sampleRequest : Request := ⟨sampleHeaders, "payload"⟩

/-- An environment with all four configuration fields present. -/
def sampleEnv : Env := ⟨some "secret", some "1", some "pem", some "kv"⟩

/-- An always-succeeding delegated verification. -/
def okVerify : VerifyArgs → Except JsError Unit := fun _ => .ok ()

/-! ### Reduction lemmas -/

theorem validateEnv_ok {env : Env} (h : envSchemaCheck env = true) :
    validateEnv env = .ok () := by
  simp [validateEnv, h]

theorem validateEnv_err {env : Env} (h : envSchemaCheck env = false) :
    validateEnv env = .error (jsNewError "Invalid environment variables") := by
  simp [validateEnv, h]

theorem getEventName_ok {ems : List String} {req : Request} {ev : String}
    (hEv : req.headers.get "x-github-event" = some ev) (hne : ev ≠ "")
    (hmem : ev ∈ ems) : getEventName ems req = .ok ev := by
  simp [getEventName, hEv, truthyStr, hne, hmem]

theorem getSignature_ok {req : Request} {sig : String}
    (hSig : req.headers.get "x-hub-signature-256" = some sig) (hne : sig ≠ "") :
    getSignature req = .ok sig := by
  simp [getSignature, hSig, truthyStr, hne]

theorem getId_ok {req : Request} {i : String}
    (hId : req.headers.get "x-github-delivery" = some i) (hne : i ≠ "") :
    getId req = .ok i := by
  simp [getId, hId, truthyStr, hne]

theorem handleUncaughtError_nonAggregate (v : JsErrVal) :
    handleUncaughtError (.nonAggregate v) =
      .ok ⟨500, jsonStringifyError "An uncaught error occurred", "application/json"⟩ := rfl

theorem fetch_env_fail {ems : List String} {verify : VerifyArgs → Except JsError Unit}
    {req : Request} {env : Env} (h : envSchemaCheck env = false) :
    fetch ems verify req env =
      .ok ⟨500, jsonStringifyError "An uncaught error occurred", "application/json"⟩ := by
  simp [fetch, fetchTry, validateEnv_err h, jsNewError, handleUncaughtError_nonAggregate]

theorem fetch_event_err {ems : List String} {verify : VerifyArgs → Except JsError Unit}
    {req : Request} {env : Env} {e : JsError} (hEnv : envSchemaCheck env = true)
    (hEv : getEventName ems req = .error e) :
    fetch ems verify req env = handleUncaughtError e := by
  simp [fetch, fetchTry, validateEnv_ok hEnv, hEv]

theorem fetch_sig_err {ems : List String} {verify : VerifyArgs → Except JsError Unit}
    {req : Request} {env : Env} {ev : String} {e : JsError}
    (hEnv : envSchemaCheck env = true) (hEv : getEventName ems req = .ok ev)
    (hSig : getSignature req = .error e) :
    fetch ems verify req env = handleUncaughtError e := by
  simp [fetch, fetchTry, validateEnv_ok hEnv, hEv, hSig]

theorem fetch_id_err {ems : List String} {verify : VerifyArgs → Except JsError Unit}
    {req : Request} {env : Env} {ev sig : String} {e : JsError}
    (hEnv : envSchemaCheck env = true) (hEv : getEventName ems req = .ok ev)
    (hSig : getSignature req = .ok sig) (hId : getId req = .error e) :
    fetch ems verify req env = handleUncaughtError e := by
  simp [fetch, fetchTry, validateEnv_ok hEnv, hEv, hSig, hId]

theorem fetch_verify {ems : List String} {verify : VerifyArgs → Except JsError Unit}
    {req : Request} {env : Env} {ev sig i : String}
    (hEnv : envSchemaCheck env = true) (hEv : getEventName ems req = .ok ev)
    (hSig : getSignature req = .ok sig) (hId : getId req = .ok i) :
    fetch ems verify req env =
      match verify ⟨i, ev, req.body, sig⟩ with
      | .ok _ => .ok ⟨200, "ok\n", "text/plain"⟩
      | .error e => handleUncaughtError e := by
  simp only [fetch, fetchTry, validateEnv_ok hEnv, hEv, hSig, hId]
  cases verify ⟨i, ev, req.body, sig⟩ <;> rfl

/-- `pat` occurs as a contiguous substring of `body` (on the underlying
character lists); used to state whether a response body names a header. -/
def mentionsText (body pat : String) : Prop := pat.data <:+: body.data

instance (body pat : String) : Decidable (mentionsText body pat) :=
  inferInstanceAs (Decidable (pat.data <:+: body.data))

theorem getEventName_err_msg {ems : List String} {req : Request} {e : JsError}
    (h : getEventName ems req = .error e) :
    e = jsNewError ("Unsupported or missing \"x-github-event\" header value: " ++
      jsTemplateNullStr (req.headers.get "x-github-event")) := by
  simp only [getEventName] at h
  split at h
  · exact (Except.error.inj h).symm
  · cases h

theorem getSignature_err_msg {req : Request} {e : JsError}
    (h : getSignature req = .error e) :
    e = jsNewError "Missing \"x-hub-signature-256\" header" := by
  simp only [getSignature] at h
  split at h
  · exact (Except.error.inj h).symm
  · cases h

theorem getId_err_msg {req : Request} {e : JsError} (h : getId req = .error e) :
    e = jsNewError "Missing \"x-github-delivery\" header" := by
  simp only [getId] at h
  split at h
  · exact (Except.error.inj h).symm
  · cases h

theorem getEventName_ok_header {ems : List String} {req : Request} {ev : String}
    (h : getEventName ems req = .ok ev) :
    req.headers.get "x-github-event" = some ev := by
  cases ho : req.headers.get "x-github-event" with
  | none => simp [getEventName, ho, truthyStr] at h
  | some s =>
    by_cases hs : s = ""
    · simp [getEventName, ho, truthyStr, hs] at h
    · by_cases hc : s ∈ ems
      · have hok := @getEventName_ok ems req s ho hs hc
        exact congrArg some (Except.ok.inj (hok.symm.trans h))
      · simp [getEventName, ho, truthyStr, hs, hc] at h

theorem getSignature_ok_header {req : Request} {sig : String}
    (h : getSignature req = .ok sig) :
    req.headers.get "x-hub-signature-256" = some sig := by
  cases ho : req.headers.get "x-hub-signature-256" with
  | none => simp [getSignature, ho, truthyStr] at h
  | some s =>
    by_cases hs : s = ""
    · simp [getSignature, ho, truthyStr, hs] at h
    · have hok := getSignature_ok ho hs
      exact congrArg some (Except.ok.inj (hok.symm.trans h))

theorem getId_ok_header {req : Request} {i : String} (h : getId req = .ok i) :
    req.headers.get "x-github-delivery" = some i := by
  cases ho : req.headers.get "x-github-delivery" with
  | none => simp [getId, ho, truthyStr] at h
  | some s =>
    by_cases hs : s = ""
    · simp [getId, ho, truthyStr, hs] at h
    · have hok := getId_ok ho hs
      exact congrArg some (Except.ok.inj (hok.symm.trans h))

theorem getEventName_err_of_none {ems : List String} {req : Request}
    (h : req.headers.get "x-github-event" = none) :
    getEventName ems req = .error (jsNewError
      "Unsupported or missing \"x-github-event\" header value: null") := by
  simp [getEventName, h, truthyStr, jsTemplateNullStr]

theorem getEventName_err_of_bad {ems : List String} {req : Request} {ev : String}
    (h : req.headers.get "x-github-event" = some ev) (hbad : ev = "" ∨ ev ∉ ems) :
    getEventName ems req = .error (jsNewError
      ("Unsupported or missing \"x-github-event\" header value: " ++ ev)) := by
  rcases hbad with hbad | hbad
  · subst hbad
    simp [getEventName, h, truthyStr, jsTemplateNullStr]
  · by_cases hs : ev = ""
    · subst hs
      simp [getEventName, h, truthyStr, jsTemplateNullStr]
    · simp [getEventName, h, truthyStr, hs, hbad, jsTemplateNullStr]

theorem getSignature_err_of_falsy {req : Request}
    (h : truthyStr (req.headers.get "x-hub-signature-256") = false) :
    getSignature req = .error (jsNewError "Missing \"x-hub-signature-256\" header") := by
  simp [getSignature, h]

theorem getId_err_of_falsy {req : Request}
    (h : truthyStr (req.headers.get "x-github-delivery") = false) :
    getId req = .error (jsNewError "Missing \"x-github-delivery\" header") := by
  simp [getId, h]

theorem fetchTry_env_fail {ems : List String}
    {verify : VerifyArgs → Except JsError Unit} {req : Request} {env : Env}
    (h : envSchemaCheck env = false) :
    fetchTry ems verify req env = .error (jsNewError "Invalid environment variables") := by
  simp [fetchTry, validateEnv_err h]

theorem fetchTry_event_err {ems : List String}
    {verify : VerifyArgs → Except JsError Unit} {req : Request} {env : Env}
    {e : JsError} (hEnv : envSchemaCheck env = true)
    (hEv : getEventName ems req = .error e) :
    fetchTry ems verify req env = .error e := by
  simp [fetchTry, validateEnv_ok hEnv, hEv]

theorem fetchTry_sig_err {ems : List String}
    {verify : VerifyArgs → Except JsError Unit} {req : Request} {env : Env}
    {ev : String} {e : JsError} (hEnv : envSchemaCheck env = true)
    (hEv : getEventName ems req = .ok ev) (hSig : getSignature req = .error e) :
    fetchTry ems verify req env = .error e := by
  simp [fetchTry, validateEnv_ok hEnv, hEv, hSig]

theorem fetchTry_id_err {ems : List String}
    {verify : VerifyArgs → Except JsError Unit} {req : Request} {env : Env}
    {ev sig : String} {e : JsError} (hEnv : envSchemaCheck env = true)
    (hEv : getEventName ems req = .ok ev) (hSig : getSignature req = .ok sig)
    (hId : getId req = .error e) :
    fetchTry ems verify req env = .error e := by
  simp [fetchTry, validateEnv_ok hEnv, hEv, hSig, hId]

theorem fetch_generic_of_event_err {ems : List String}
    {verify : VerifyArgs → Except JsError Unit} {req : Request} {env : Env}
    {e : JsError} (hEnv : envSchemaCheck env = true)
    (hEv : getEventName ems req = .error e) :
    fetch ems verify req env =
      .ok ⟨500, jsonStringifyError "An uncaught error occurred", "application/json"⟩ := by
  rw [fetch_event_err hEnv hEv, getEventName_err_msg hEv]
  exact handleUncaughtError_nonAggregate _

theorem fetch_generic_of_sig_err {ems : List String}
    {verify : VerifyArgs → Except JsError Unit} {req : Request} {env : Env}
    {ev : String} {e : JsError} (hEnv : envSchemaCheck env = true)
    (hEv : getEventName ems req = .ok ev) (hSig : getSignature req = .error e) :
    fetch ems verify req env =
      .ok ⟨500, jsonStringifyError "An uncaught error occurred", "application/json"⟩ := by
  rw [fetch_sig_err hEnv hEv hSig, getSignature_err_msg hSig]
  exact handleUncaughtError_nonAggregate _

theorem fetch_generic_of_id_err {ems : List String}
    {verify : VerifyArgs → Except JsError Unit} {req : Request} {env : Env}
    {ev sig : String} {e : JsError} (hEnv : envSchemaCheck env = true)
    (hEv : getEventName ems req = .ok ev) (hSig : getSignature req = .ok sig)
    (hId : getId req = .error e) :
    fetch ems verify req env =
      .ok ⟨500, jsonStringifyError "An uncaught error occurred", "application/json"⟩ := by
  rw [fetch_id_err hEnv hEv hSig hId, getId_err_msg hId]
  exact handleUncaughtError_nonAggregate _

/-! ### Claim theorems -/

/-- C1: with a schema-valid configuration, the three headers present (a
supported, necessarily non-empty, event name and non-empty signature and
delivery values), and a succeeding delegated `verifyAndReceive` call, `fetch`
returns exactly status 200, body `"ok\n"`, content-type `text/plain`. -/
theorem c1_success_response (ems : List String)
    (verify : VerifyArgs → Except JsError Unit) (req : Request) (env : Env)
    (ev sig i : String) (hEnv : envSchemaCheck env = true)
    (hEv : req.headers.get "x-github-event" = some ev) (hEvNe : ev ≠ "")
    (hEvMem : ev ∈ ems)
    (hSig : req.headers.get "x-hub-signature-256" = some sig) (hSigNe : sig ≠ "")
    (hId : req.headers.get "x-github-delivery" = some i) (hIdNe : i ≠ "")
    (hVerify : verify ⟨i, ev, req.body, sig⟩ = .ok ()) :
    fetch ems verify req env = .ok ⟨200, "ok\n", "text/plain"⟩ := by
  rw [fetch_verify hEnv (getEventName_ok hEv hEvNe hEvMem)
    (getSignature_ok hSig hSigNe) (getId_ok hId hIdNe), hVerify]

/-- C1 witness: a concrete request, environment and succeeding verifier. -/
theorem c1_success_response_witness :
    fetch ["push"] okVerify sampleRequest sampleEnv =
      .ok ⟨200, "ok\n", "text/plain"⟩ :=
  c1_success_response ["push"] okVerify sampleRequest sampleEnv
    "push" "sha256=abc" "delivery-1" rfl rfl (by decide) (by decide) rfl
    (by decide) rfl (by decide) rfl

/-- A delegated verification throwing an `AggregateError` with an empty
`errors` array. -/
def emptyAggregateVerify : VerifyArgs → Except JsError Unit :=
  fun _ => .error (.aggregate [])

/-- C2 counterexample: an `AggregateError` with an empty `errors` array is
NOT turned into an HTTP error response — `error.errors[0]` is `undefined`,
so the `err.message` read inside `handleUncaughtError` itself throws a
`TypeError` (`.error ()`), and `fetch` produces no response at all. -/
theorem c2_catch_counterexample :
    handleUncaughtError (.aggregate []) = .error () ∧
      fetch ["push"] emptyAggregateVerify sampleRequest sampleEnv = .error () :=
  ⟨rfl, rfl⟩

/-- C2 amended: `handleUncaughtError` returns a response for every thrown
value whose first aggregated element (if the value is an `AggregateError`)
exists and is not nullish; under that proviso on whatever `fetchTry` throws,
`fetch` always returns a response. -/
theorem c2_amended_catch :
    (∀ e : JsError, firstErrorReadable e = true →
      ∃ r, handleUncaughtError e = .ok r) ∧
    (∀ (ems : List String) (verify : VerifyArgs → Except JsError Unit)
      (req : Request) (env : Env),
      (∀ e, fetchTry ems verify req env = .error e → firstErrorReadable e = true) →
      ∃ r, fetch ems verify req env = .ok r) := by
  have key : ∀ e : JsError, firstErrorReadable e = true →
      ∃ r, handleUncaughtError e = .ok r := by
    intro e he
    match e with
    | .aggregate [] => simp [firstErrorReadable] at he
    | .aggregate (.nullish :: _) => simp [firstErrorReadable] at he
    | .aggregate (.val n m s :: _) => exact ⟨_, rfl⟩
    | .nonAggregate v => exact ⟨_, rfl⟩
  refine ⟨key, ?_⟩
  intro ems verify req env h
  cases hf : fetchTry ems verify req env with
  | ok r => exact ⟨r, by simp [fetch, hf]⟩
  | error e =>
    obtain ⟨r, hr⟩ := key e (h e hf)
    exact ⟨r, by simp [fetch, hf, hr]⟩

/-- C2 witness: the amended theorem applied to a thrown non-aggregate value. -/
theorem c2_amended_catch_witness :
    ∃ r, handleUncaughtError (.nonAggregate .nullish) = .ok r :=
  c2_amended_catch.1 (.nonAggregate .nullish) rfl

/-- An environment whose webhook secret is missing. -/
def badEnv : Env := ⟨none, some "1", some "pem", some "kv"⟩

/-- C3: when the configuration fails the schema check, every request gets
status 500 with JSON body error field `"An uncaught error occurred"`,
whatever headers the request has and whatever the delegated verifier does. -/
theorem c3_invalid_env (ems : List String)
    (verify : VerifyArgs → Except JsError Unit) (req : Request) (env : Env)
    (hEnv : envSchemaCheck env = false) :
    fetch ems verify req env =
      .ok ⟨500, jsonStringifyError "An uncaught error occurred", "application/json"⟩ :=
  fetch_env_fail hEnv

/-- C3 witness: the missing-secret environment, with all headers present. -/
theorem c3_invalid_env_witness :
    fetch ["push"] okVerify sampleRequest badEnv =
      .ok ⟨500, jsonStringifyError "An uncaught error occurred", "application/json"⟩ :=
  c3_invalid_env ["push"] okVerify sampleRequest badEnv rfl

/-- A delegated verification throwing an `AggregateError` whose first
element has name `"Error"`, message `"not found"` and status 404. -/
def notFoundVerify : VerifyArgs → Except JsError Unit :=
  fun _ => .error (.aggregate [.val (some "Error") (some "not found") (some 404)])

/-- C4: an `AggregateError` whose first element has a non-empty message and
a defined status yields that status and the message `"<name>: <message>"`. -/
theorem c4_aggregate_first_error (ems : List String)
    (verify : VerifyArgs → Except JsError Unit) (req : Request) (env : Env)
    (name : Option String) (msg : String) (st : Int) (rest : List JsErrVal)
    (h : fetchTry ems verify req env =
      .error (.aggregate (.val name (some msg) (some st) :: rest)))
    (hne : msg ≠ "") :
    fetch ems verify req env =
      .ok ⟨st, jsonStringifyError (jsTemplateStr name ++ ": " ++ msg),
        "application/json"⟩ := by
  simp [fetch, h, handleUncaughtError, truthyStr, hne]

/-- C4 witness: status 404 and message `"Error: not found"`, as in the spec
example. -/
theorem c4_aggregate_first_error_witness :
    fetch ["push"] notFoundVerify sampleRequest sampleEnv =
      .ok ⟨404, jsonStringifyError "Error: not found", "application/json"⟩ :=
  c4_aggregate_first_error ["push"] notFoundVerify sampleRequest sampleEnv
    (some "Error") "not found" 404 [] rfl (by decide)

/-- A delegated verification throwing an `AggregateError` whose first
element has an empty message and no status. -/
def emptyMsgVerify : VerifyArgs → Except JsError Unit :=
  fun _ => .error (.aggregate [.val (some "HttpError") (some "") none])

/-- C5: full conditional for an `AggregateError` with a non-nullish first
element: message `"<name>: <message>"` when the first message is non-empty,
`"Error: An uncaught error occurred"` (the name discarded) when it is empty
or absent; status taken from the first element when defined, else 500. -/
theorem c5_aggregate_conditional (ems : List String)
    (verify : VerifyArgs → Except JsError Unit) (req : Request) (env : Env)
    (name message : Option String) (st : Option Int) (rest : List JsErrVal)
    (h : fetchTry ems verify req env =
      .error (.aggregate (.val name message st :: rest))) :
    fetch ems verify req env =
      .ok ⟨(match st with | some s => s | none => 500),
        jsonStringifyError
          (match message with
            | some m =>
              if m = "" then "Error: An uncaught error occurred"
              else jsTemplateStr name ++ ": " ++ m
            | none => "Error: An uncaught error occurred"),
        "application/json"⟩ := by
  cases message with
  | none => cases st <;> simp [fetch, h, handleUncaughtError, truthyStr]
  | some m =>
    by_cases hm : m = "" <;> cases st <;>
      simp [fetch, h, handleUncaughtError, truthyStr, hm]

/-- C5 witness: empty first message and no status give message
`"Error: An uncaught error occurred"` and status 500. -/
theorem c5_aggregate_conditional_witness :
    fetch ["push"] emptyMsgVerify sampleRequest sampleEnv =
      .ok ⟨500, jsonStringifyError "Error: An uncaught error occurred",
        "application/json"⟩ :=
  c5_aggregate_conditional ["push"] emptyMsgVerify sampleRequest sampleEnv
    (some "HttpError") (some "") none [] rfl

/-- A delegated verification throwing a plain (non-aggregate) error carrying
a name, a message and a status. -/
def teapotVerify : VerifyArgs → Except JsError Unit :=
  fun _ => .error (.nonAggregate (.val (some "TeapotError") (some "teapot") (some 418)))

/-- C8: any caught non-`AggregateError` value yields status 500 and the JSON
body `{"error":"An uncaught error occurred"}`, whatever its own name,
message or status fields. -/
theorem c8_nonaggregate_generic (ems : List String)
    (verify : VerifyArgs → Except JsError Unit) (req : Request) (env : Env)
    (v : JsErrVal) (h : fetchTry ems verify req env = .error (.nonAggregate v)) :
    fetch ems verify req env =
      .ok ⟨500, jsonStringifyError "An uncaught error occurred", "application/json"⟩ := by
  simp [fetch, h, handleUncaughtError_nonAggregate]

/-- C8 witness: a non-aggregate error with its own name, message and status
418 is still reported as the generic 500 response. -/
theorem c8_nonaggregate_generic_witness :
    fetch ["push"] teapotVerify sampleRequest sampleEnv =
      .ok ⟨500, jsonStringifyError "An uncaught error occurred", "application/json"⟩ :=
  c8_nonaggregate_generic ["push"] teapotVerify sampleRequest sampleEnv
    (.val (some "TeapotError") (some "teapot") (some 418)) rfl

/-- A request whose `x-hub-signature-256` header is absent (event and
delivery present). -/
def noSigRequest : Request :=
  ⟨⟨fun h =>
    if h = "x-github-event" then some "push"
    else if h = "x-github-delivery" then some "delivery-1"
    else none⟩, "payload"⟩

/-- C6 counterexample: a request with a valid event but no signature header
gets the generic 500 body, whose error message does not name the missing
`x-hub-signature-256` header (header errors are non-aggregate, so
`handleUncaughtError` discards their message). -/
theorem c6_counterexample :
    noSigRequest.headers.get "x-hub-signature-256" = none ∧
      fetch ["push"] okVerify noSigRequest sampleEnv =
        .ok ⟨500, jsonStringifyError "An uncaught error occurred", "application/json"⟩ ∧
      ¬ mentionsText (jsonStringifyError "An uncaught error occurred")
        "x-hub-signature-256" :=
  ⟨rfl, rfl, by decide⟩

/-- C6 amended: with a valid configuration, any request lacking one of the
three headers gets a non-200 response, namely status 500 with the generic
body; the error naming the missing header is thrown internally (and logged)
but not included in the response, and it is the error of the earliest
failing header check in the order event, signature, delivery. -/
theorem c6_amended_missing_header (ems : List String)
    (verify : VerifyArgs → Except JsError Unit) (req : Request) (env : Env)
    (hEnv : envSchemaCheck env = true) :
    ((req.headers.get "x-github-event" = none ∨
      req.headers.get "x-hub-signature-256" = none ∨
      req.headers.get "x-github-delivery" = none) →
      fetch ems verify req env =
        .ok ⟨500, jsonStringifyError "An uncaught error occurred", "application/json"⟩) ∧
    (req.headers.get "x-github-event" = none →
      fetchTry ems verify req env = .error (jsNewError
        "Unsupported or missing \"x-github-event\" header value: null")) ∧
    (∀ ev, req.headers.get "x-github-event" = some ev → ev ≠ "" → ev ∈ ems →
      req.headers.get "x-hub-signature-256" = none →
      fetchTry ems verify req env =
        .error (jsNewError "Missing \"x-hub-signature-256\" header")) ∧
    (∀ ev sig, req.headers.get "x-github-event" = some ev → ev ≠ "" → ev ∈ ems →
      req.headers.get "x-hub-signature-256" = some sig → sig ≠ "" →
      req.headers.get "x-github-delivery" = none →
      fetchTry ems verify req env =
        .error (jsNewError "Missing \"x-github-delivery\" header")) := by
  refine ⟨?_, ?_, ?_, ?_⟩
  · intro hmiss
    cases hEvRes : getEventName ems req with
    | error e => exact fetch_generic_of_event_err hEnv hEvRes
    | ok ev =>
      cases hSigRes : getSignature req with
      | error e => exact fetch_generic_of_sig_err hEnv hEvRes hSigRes
      | ok sig =>
        cases hIdRes : getId req with
        | error e => exact fetch_generic_of_id_err hEnv hEvRes hSigRes hIdRes
        | ok i =>
          exfalso
          rcases hmiss with h | h | h
          · rw [getEventName_ok_header hEvRes] at h
            cases h
          · rw [getSignature_ok_header hSigRes] at h
            cases h
          · rw [getId_ok_header hIdRes] at h
            cases h
  · intro h
    exact fetchTry_event_err hEnv (getEventName_err_of_none h)
  · intro ev hEv hne hmem hSig
    exact fetchTry_sig_err hEnv (getEventName_ok hEv hne hmem)
      (getSignature_err_of_falsy (by rw [hSig]; rfl))
  · intro ev sig hEv hne hmem hSig hSigNe hId
    exact fetchTry_id_err hEnv (getEventName_ok hEv hne hmem)
      (getSignature_ok hSig hSigNe) (getId_err_of_falsy (by rw [hId]; rfl))

/-- C6 witness: the amended theorem at the request missing its signature
header. -/
theorem c6_amended_missing_header_witness :
    fetchTry ["push"] okVerify noSigRequest sampleEnv =
      .error (jsNewError "Missing \"x-hub-signature-256\" header") :=
  (c6_amended_missing_header ["push"] okVerify noSigRequest sampleEnv
    rfl).2.2.1 "push" rfl (by decide) (by decide) rfl

/-- A request whose `x-github-event` header carries a value outside the
supported event names. -/
def bogusEventRequest : Request :=
  ⟨⟨fun h =>
    if h = "x-github-event" then some "bogus"
    else if h = "x-hub-signature-256" then some "sha256=abc"
    else if h = "x-github-delivery" then some "delivery-1"
    else none⟩, "payload"⟩

/-- C7 counterexample: an unsupported `x-github-event` value never yields a
200, but the response message is the generic one: it does not mention the
event header, nor that anything is unsupported or missing. -/
theorem c7_counterexample :
    fetch ["push"] okVerify bogusEventRequest sampleEnv =
      .ok ⟨500, jsonStringifyError "An uncaught error occurred", "application/json"⟩ ∧
      ¬ mentionsText (jsonStringifyError "An uncaught error occurred") "x-github-event" ∧
      ¬ mentionsText (jsonStringifyError "An uncaught error occurred") "nsupported" ∧
      ¬ mentionsText (jsonStringifyError "An uncaught error occurred") "missing" :=
  ⟨rfl, by decide, by decide, by decide⟩

/-- C7 amended: an unsupported `x-github-event` value raises (and logs) the
"Unsupported or missing" error internally and the response is never a 200 —
but it is the generic 500 body, not that error message. -/
theorem c7_amended_unsupported_event (ems : List String)
    (verify : VerifyArgs → Except JsError Unit) (req : Request) (env : Env)
    (ev : String) (hEnv : envSchemaCheck env = true)
    (hEv : req.headers.get "x-github-event" = some ev) (hmem : ev ∉ ems) :
    fetchTry ems verify req env = .error (jsNewError
      ("Unsupported or missing \"x-github-event\" header value: " ++ ev)) ∧
    fetch ems verify req env =
      .ok ⟨500, jsonStringifyError "An uncaught error occurred", "application/json"⟩ := by
  have hErr := getEventName_err_of_bad hEv (Or.inr hmem)
  exact ⟨fetchTry_event_err hEnv hErr, fetch_generic_of_event_err hEnv hErr⟩

/-- C7 witness: the amended theorem at the request with event value
`"bogus"`. -/
theorem c7_amended_unsupported_event_witness :
    fetchTry ["push"] okVerify bogusEventRequest sampleEnv = .error (jsNewError
      ("Unsupported or missing \"x-github-event\" header value: " ++ "bogus")) ∧
    fetch ["push"] okVerify bogusEventRequest sampleEnv =
      .ok ⟨500, jsonStringifyError "An uncaught error occurred", "application/json"⟩ :=
  c7_amended_unsupported_event ["push"] okVerify bogusEventRequest sampleEnv
    "bogus" rfl rfl (by decide)

/-- A request carrying none of the three webhook headers. -/
def bareRequest : Request := ⟨⟨fun _ => none⟩, "payload"⟩

/-- C9: the checks run in the order configuration, event name, signature,
delivery id; the error raised (and caught) is that of the earliest failing
step, whatever the state of the later ones. -/
theorem c9_validation_order (ems : List String)
    (verify : VerifyArgs → Except JsError Unit) (req : Request) (env : Env) :
    (envSchemaCheck env = false →
      fetchTry ems verify req env = .error (jsNewError "Invalid environment variables")) ∧
    (∀ e, envSchemaCheck env = true → getEventName ems req = .error e →
      fetchTry ems verify req env = .error e) ∧
    (∀ ev e, envSchemaCheck env = true → getEventName ems req = .ok ev →
      getSignature req = .error e → fetchTry ems verify req env = .error e) ∧
    (∀ ev sig e, envSchemaCheck env = true → getEventName ems req = .ok ev →
      getSignature req = .ok sig → getId req = .error e →
      fetchTry ems verify req env = .error e) := by
  refine ⟨fun h => fetchTry_env_fail h, ?_, ?_, ?_⟩
  · intro e hEnv hEv
    exact fetchTry_event_err hEnv hEv
  · intro ev e hEnv hEv hSig
    exact fetchTry_sig_err hEnv hEv hSig
  · intro ev sig e hEnv hEv hSig hId
    exact fetchTry_id_err hEnv hEv hSig hId

/-- C9 witness: a request missing all three headers raises the event-name
error (the earliest header check). -/
theorem c9_validation_order_witness :
    fetchTry ["push"] okVerify bareRequest sampleEnv = .error (jsNewError
      "Unsupported or missing \"x-github-event\" header value: null") :=
  (c9_validation_order ["push"] okVerify bareRequest sampleEnv).2.1 _ rfl rfl

/-- A request whose `x-hub-signature-256` header is present but empty. -/
def emptySigRequest : Request :=
  ⟨⟨fun h =>
    if h = "x-github-event" then some "push"
    else if h = "x-hub-signature-256" then some ""
    else if h = "x-github-delivery" then some "delivery-1"
    else none⟩, "payload"⟩

/-- C10: a required header present with the empty string behaves like an
absent one: the corresponding missing (or unsupported-or-missing) error is
raised, and the outcome is the same for every delegated verifier — the
request never reaches signature verification. -/
theorem c10_empty_header (ems : List String) (req : Request) (env : Env)
    (hEnv : envSchemaCheck env = true) :
    (req.headers.get "x-github-event" = some "" →
      ∀ verify, fetchTry ems verify req env = .error (jsNewError
        "Unsupported or missing \"x-github-event\" header value: ")) ∧
    (∀ ev, req.headers.get "x-github-event" = some ev → ev ≠ "" → ev ∈ ems →
      req.headers.get "x-hub-signature-256" = some "" →
      ∀ verify, fetchTry ems verify req env =
        .error (jsNewError "Missing \"x-hub-signature-256\" header")) ∧
    (∀ ev sig, req.headers.get "x-github-event" = some ev → ev ≠ "" → ev ∈ ems →
      req.headers.get "x-hub-signature-256" = some sig → sig ≠ "" →
      req.headers.get "x-github-delivery" = some "" →
      ∀ verify, fetchTry ems verify req env =
        .error (jsNewError "Missing \"x-github-delivery\" header")) := by
  refine ⟨?_, ?_, ?_⟩
  · intro h verify
    exact fetchTry_event_err hEnv
      (by simpa using getEventName_err_of_bad h (Or.inl rfl))
  · intro ev hEv hne hmem hSig verify
    exact fetchTry_sig_err hEnv (getEventName_ok hEv hne hmem)
      (getSignature_err_of_falsy (by rw [hSig]; rfl))
  · intro ev sig hEv hne hmem hSig hSigNe hId verify
    exact fetchTry_id_err hEnv (getEventName_ok hEv hne hmem)
      (getSignature_ok hSig hSigNe) (getId_err_of_falsy (by rw [hId]; rfl))

/-- C10 witness: the empty signature header raises the same missing-header
error as an absent one. -/
theorem c10_empty_header_witness :
    fetchTry ["push"] okVerify emptySigRequest sampleEnv =
      .error (jsNewError "Missing \"x-hub-signature-256\" header") :=
  (c10_empty_header ["push"] emptySigRequest sampleEnv rfl).2.1 "push" rfl
    (by decide) (by decide) rfl okVerify

end Worker
